import Mathlib

set_option autoImplicit false

namespace Ppymilter

/-- Byte strings of the Python sources, modelled as lists of byte values
(natural numbers; every value originating from a wire payload is below 256). -/
abbrev Bytes := List Nat

/-- Milter protocol version constant of ppymilterbase.py (line 36). -/
def MILTER_VERSION : Nat := 2

/-- Big-endian four-byte encoding of a 32-bit value: one `!I` field of
`struct.pack` in `PpyMilter.OnOptNeg`. -/
def pack32 (n : Nat) : Bytes :=
  [n / 16777216 % 256, n / 65536 % 256, n / 256 % 256, n % 256]

/-- Big-endian reading of four bytes: one `!I` field of `struct.unpack` in
`_ParseOptNeg`. -/
def toU32 (a b c d : Nat) : Nat :=
  ((a * 256 + b) * 256 + c) * 256 + d

/-- Python `s.split(chr(0))` on a byte string: splitting on every NUL byte; a
string with n NUL bytes yields n+1 pieces, so a trailing NUL yields a trailing
empty piece, and the empty string yields one empty piece. -/
def splitNul : Bytes → List Bytes
  | [] => [[]]
  | b :: rest =>
    if b = 0 then [] :: splitNul rest
    else
      match splitNul rest with
      | [] => [[b]]
      | piece :: pieces => (b :: piece) :: pieces

/-- Python `s.split(chr(0), 1)` destructured into exactly two pieces: the part
before the first NUL and the remainder after it; `none` models the ValueError
raised by the tuple unpacking when the string holds no NUL at all. -/
def splitOnceNul : Bytes → Option (Bytes × Bytes)
  | [] => none
  | b :: rest =>
    if b = 0 then some ([], rest)
    else (splitOnceNul rest).map (fun p => (b :: p.1, p.2))

/-- Command-code table `COMMANDS` of ppymilterbase.py (lines 40-55): command
byte mapped to the name from which the dispatcher derives both the parser
method name and the handler method name. -/
def COMMANDS : List (Nat × String) :=
  [(65, "Abort"), (66, "Body"), (67, "Connect"), (68, "Macro"),
   (69, "EndBody"), (72, "Helo"), (76, "Header"), (77, "MailFrom"),
   (78, "EndHeaders"), (79, "OptNeg"), (82, "RcptTo"), (81, "Quit"),
   (84, "Data"), (85, "Unknown")]

/-- Membership test `cmd in COMMANDS` combined with the lookup of the name. -/
def lookupCmd (c : Nat) : Option String :=
  (COMMANDS.find? (fun p => p.1 == c)).map (fun p => p.2)

/-- Initial protocol mask `NO_CALLBACKS` (all seven callback skip flags set). -/
def NO_CALLBACKS : Nat := 127

/-- Table `CALLBACKS` of ppymilterbase.py (lines 60-68): handler method name
mapped to the protocol skip bit it clears when implemented. -/
def CALLBACKS : List (String × Nat) :=
  [("OnConnect", 1), ("OnHelo", 2), ("OnMailFrom", 4), ("OnRcptTo", 8),
   ("OnBody", 16), ("OnHeader", 32), ("OnEndHeaders", 64)]

/-- Response byte for CONTINUE (the character c). -/
def RESPONSE_CONTINUE : Bytes := [99]

/-- Response byte for TEMPFAIL (the character t). -/
def RESPONSE_TEMPFAIL : Bytes := [116]

/-- Response byte for REJECT (the character r). -/
def RESPONSE_REJECT : Bytes := [114]

/-- Outcome of one handler callback invocation: the callback either returns a
pair `(code, data)` (`reply`), returns a non-pair value such as `None`
(`noReply`, handled by the TypeError branch of `Dispatch`), or raises one of
the three PpyMilter exceptions. -/
inductive HandlerResult where
  | reply (code : Nat) (payload : Bytes)
  | noReply
  | tempFail
  | permFail
  | closeConn
  deriving DecidableEq

/-- Model of a `PpyMilter` handler instance as produced by the constructor:
the action mask accumulated by the Can* registrations, and for each callback
an optional function (`none` means the subclass does not define the method;
for `OnOptNeg`, `OnMacro` and `OnQuit`, which the base class defines, `none`
means the base-class default body runs). -/
structure Milter where
  actions : Nat := 0
  onOptNeg : Option (Nat → Nat → Nat → HandlerResult) := none
  onMacro : Option (Nat → List Bytes → HandlerResult) := none
  onQuit : Option HandlerResult := none
  onConnect : Option (Bytes → Nat → Nat → Bytes → HandlerResult) := none
  onHelo : Option (Bytes → HandlerResult) := none
  onMailFrom : Option (Bytes → List Bytes → HandlerResult) := none
  onRcptTo : Option (Bytes → List Bytes → HandlerResult) := none
  onHeader : Option (Bytes → Bytes → HandlerResult) := none
  onEndHeaders : Option HandlerResult := none
  onBody : Option (Bytes → HandlerResult) := none
  onEndBody : Option (Bytes → HandlerResult) := none
  onAbort : Option HandlerResult := none
  onData : Option HandlerResult := none
  onUnknown : Option (Bytes → HandlerResult) := none

/-- Python `hasattr(self.__milter, name)` for the handler method names the
dispatcher can ask about: `OnOptNeg`, `OnMacro` and `OnQuit` are defined on
the `PpyMilter` base class and hence always present; the others are present
exactly when the subclass defines them. -/
def Milter.hasCallback (m : Milter) (name : String) : Bool :=
  if name == "OnOptNeg" || name == "OnMacro" || name == "OnQuit" then true
  else if name == "OnConnect" then m.onConnect.isSome
  else if name == "OnHelo" then m.onHelo.isSome
  else if name == "OnMailFrom" then m.onMailFrom.isSome
  else if name == "OnRcptTo" then m.onRcptTo.isSome
  else if name == "OnHeader" then m.onHeader.isSome
  else if name == "OnEndHeaders" then m.onEndHeaders.isSome
  else if name == "OnBody" then m.onBody.isSome
  else if name == "OnEndBody" then m.onEndBody.isSome
  else if name == "OnAbort" then m.onAbort.isSome
  else if name == "OnData" then m.onData.isSome
  else if name == "OnUnknown" then m.onUnknown.isSome
  else false

/-- Protocol mask computed by `PpyMilter.__init__` (lines 389-393): start from
`NO_CALLBACKS` and clear the skip bit of every implemented callback listed in
`CALLBACKS`.  The Python statement is a bitwise AND with the complement; since
the mask never leaves the range below 128, clearing the bit equals AND with
`127 ^^^ flag`. -/
def Milter.protocol (m : Milter) : Nat :=
  CALLBACKS.foldl
    (fun p cf => if m.hasCallback cf.1 then p &&& (127 ^^^ cf.2) else p)
    NO_CALLBACKS

/-- Invocation of `OnOptNeg`: the subclass override if any, otherwise the
base-class default (lines 428-441), which packs `!III` of `MILTER_VERSION`,
the AND of the advertised and peer action masks, and the AND of the advertised
and peer protocol masks, under the echoed command byte O (79).  The default
ignores the peer version entirely. -/
def Milter.callOptNeg (m : Milter) (ver acts proto : Nat) : HandlerResult :=
  match m.onOptNeg with
  | some f => f ver acts proto
  | none =>
      .reply 79 (pack32 MILTER_VERSION ++ pack32 (m.actions &&& acts) ++
                 pack32 (m.protocol &&& proto))

/-- Invocation of `OnMacro`: the override if any, otherwise the base-class
default which returns `None`. -/
def Milter.callMacro (m : Milter) (mc : Nat) (items : List Bytes) : HandlerResult :=
  match m.onMacro with
  | some f => f mc items
  | none => .noReply

/-- Invocation of `OnQuit`: the override if any, otherwise the base-class
default which raises `PpyMilterCloseConnection`. -/
def Milter.callQuit (m : Milter) : HandlerResult :=
  match m.onQuit with
  | some r => r
  | none => .closeConn

/-- Parser `_ParseOptNeg`: `struct.unpack` of `!III` requires exactly twelve
bytes; `none` models the struct error raised otherwise. -/
def _ParseOptNeg (data : Bytes) : Option (Nat × Nat × Nat) :=
  match data with
  | [a0, a1, a2, a3, b0, b1, b2, b3, c0, c1, c2, c3] =>
      some (toU32 a0 a1 a2 a3, toU32 b0 b1 b2 b3, toU32 c0 c1 c2 c3)
  | _ => none

/-- Parser `_ParseMacro`: first byte is the macro command byte, the remainder
is split on NUL; on an empty payload the first indexing raises. -/
def _ParseMacro (data : Bytes) : Option (Nat × List Bytes) :=
  match data with
  | [] => none
  | mc :: rest => some (mc, splitNul rest)

/-- Parser `_ParseConnect`: a NUL-terminated hostname, one family byte, a
big-endian 16-bit port, then the rest verbatim as the address; `none` models
the exceptions raised on payloads too short for those reads. -/
def _ParseConnect (data : Bytes) : Option (Bytes × Nat × Nat × Bytes) :=
  match splitOnceNul data with
  | none => none
  | some (hostname, rest) =>
    match rest with
    | f :: p1 :: p2 :: address => some (hostname, f, p1 * 256 + p2, address)
    | _ => none

/-- Parser `_ParseHelo`: the payload is handed to the callback verbatim. -/
def _ParseHelo (data : Bytes) : Bytes := data

/-- Parser `_ParseMailFrom`: the address up to the first NUL, then the
remainder split on NUL as the ESMTP argument list; with no NUL present the
two-way tuple unpacking raises, modelled by `none`. -/
def _ParseMailFrom (data : Bytes) : Option (Bytes × List Bytes) :=
  match splitOnceNul data with
  | none => none
  | some (mailfrom, rest) => some (mailfrom, splitNul rest)

/-- Parser `_ParseRcptTo`: identical shape to `_ParseMailFrom`. -/
def _ParseRcptTo (data : Bytes) : Option (Bytes × List Bytes) :=
  match splitOnceNul data with
  | none => none
  | some (rcptto, rest) => some (rcptto, splitNul rest)

/-- Parser `_ParseHeader`: header name and value separated by the first NUL. -/
def _ParseHeader (data : Bytes) : Option (Bytes × Bytes) := splitOnceNul data

/-- Parser `_ParseBody`: the payload is handed to the callback verbatim. -/
def _ParseBody (data : Bytes) : Bytes := data

/-- Parser `_ParseEndBody`: the payload is handed to the callback verbatim. -/
def _ParseEndBody (data : Bytes) : Bytes := data

/-- Presence of a `_ParseX` method on `PpyMilterDispatcher`: the class defines
parsers for exactly these eleven command names; notably there is no parser
method for Abort, Data or Unknown. -/
def hasParser (command : String) : Bool :=
  command == "OptNeg" || command == "Macro" || command == "Connect" ||
  command == "Helo" || command == "MailFrom" || command == "RcptTo" ||
  command == "Header" || command == "EndHeaders" || command == "Body" ||
  command == "EndBody" || command == "Quit"

/-- Value returned by `PpyMilterDispatcher.Dispatch` in Python terms: a single
response string, a list of response strings (a shape the transport layer of
ppymilterserver.py is prepared to write), or `None`. -/
inductive DispatchReturn where
  | str (s : Bytes)
  | listv (rs : List Bytes)
  | pynone
  deriving DecidableEq

/-- Python exceptions escaping `Dispatch` uncaught, other than the close
signal: the indexing of an empty input, and the parse-time struct, value or
index errors on malformed payloads. -/
inductive PyErr where
  | indexError
  | parseError
  deriving DecidableEq

/-- Observable outcome of one `Dispatch` call: a returned value, the
`PpyMilterCloseConnection` exception (which the transport converts into a
socket close), or another uncaught exception. -/
inductive DispatchOutcome where
  | ret (r : DispatchReturn)
  | closeConnection
  | err (e : PyErr)
  deriving DecidableEq

/-- Translation of a handler invocation outcome into the dispatcher result,
following lines 174-185 of ppymilterbase.py: a returned pair is formatted as
code byte followed by data; a non-pair return hits the TypeError branch and
yields `None`; PpyMilterTempFailure yields TEMPFAIL; PpyMilterPermFailure
yields REJECT; PpyMilterCloseConnection propagates to the transport. -/
def handleResult : HandlerResult → DispatchOutcome
  | .reply c p => .ret (.str (c :: p))
  | .noReply => .ret .pynone
  | .tempFail => .ret (.str RESPONSE_TEMPFAIL)
  | .permFail => .ret (.str RESPONSE_REJECT)
  | .closeConn => .closeConnection

/-- Invocation of one callback, paired with a trace of which callback ran and
what it produced.  The trace component exists only in the model: it records
the single `callback(*args)` call site of `Dispatch`. -/
def runCallback (name : String) (r : HandlerResult) :
    DispatchOutcome × Option (String × HandlerResult) :=
  (handleResult r, some (name, r))

/-- Parse-and-invoke step of `Dispatch` for a command that passed the command
table, parser presence and handler presence checks: run the matching parser,
then the matching callback on the parsed arguments.  The `none` branches on
the callback fields are unreachable (guarded by `Milter.hasCallback` in
`DispatchT`) and conservatively repeat the CONTINUE answer of that guard. -/
def parseAndCall (m : Milter) (command : String) (data : Bytes) :
    DispatchOutcome × Option (String × HandlerResult) :=
  if command == "OptNeg" then
    match _ParseOptNeg data with
    | none => (.err .parseError, none)
    | some (ver, acts, proto) => runCallback "OnOptNeg" (m.callOptNeg ver acts proto)
  else if command == "Macro" then
    match _ParseMacro data with
    | none => (.err .parseError, none)
    | some (mc, items) => runCallback "OnMacro" (m.callMacro mc items)
  else if command == "Connect" then
    match _ParseConnect data with
    | none => (.err .parseError, none)
    | some (hostname, fam, port, address) =>
      match m.onConnect with
      | some cb => runCallback "OnConnect" (cb hostname fam port address)
      | none => (.ret (.str RESPONSE_CONTINUE), none)
  else if command == "Helo" then
    match m.onHelo with
    | some cb => runCallback "OnHelo" (cb (_ParseHelo data))
    | none => (.ret (.str RESPONSE_CONTINUE), none)
  else if command == "MailFrom" then
    match _ParseMailFrom data with
    | none => (.err .parseError, none)
    | some (mailfrom, args) =>
      match m.onMailFrom with
      | some cb => runCallback "OnMailFrom" (cb mailfrom args)
      | none => (.ret (.str RESPONSE_CONTINUE), none)
  else if command == "RcptTo" then
    match _ParseRcptTo data with
    | none => (.err .parseError, none)
    | some (rcptto, args) =>
      match m.onRcptTo with
      | some cb => runCallback "OnRcptTo" (cb rcptto args)
      | none => (.ret (.str RESPONSE_CONTINUE), none)
  else if command == "Header" then
    match _ParseHeader data with
    | none => (.err .parseError, none)
    | some (key, val) =>
      match m.onHeader with
      | some cb => runCallback "OnHeader" (cb key val)
      | none => (.ret (.str RESPONSE_CONTINUE), none)
  else if command == "EndHeaders" then
    match m.onEndHeaders with
    | some r => runCallback "OnEndHeaders" r
    | none => (.ret (.str RESPONSE_CONTINUE), none)
  else if command == "Body" then
    match m.onBody with
    | some cb => runCallback "OnBody" (cb (_ParseBody data))
    | none => (.ret (.str RESPONSE_CONTINUE), none)
  else if command == "EndBody" then
    match m.onEndBody with
    | some cb => runCallback "OnEndBody" (cb (_ParseEndBody data))
    | none => (.ret (.str RESPONSE_CONTINUE), none)
  else if command == "Quit" then
    runCallback "OnQuit" m.callQuit
  else (.ret (.str RESPONSE_CONTINUE), none)

/-- Model of `PpyMilterDispatcher.Dispatch` (ppymilterbase.py lines 135-186),
instrumented with the callback invocation trace.  Empty input fails on the
initial indexing of the command byte; a command byte outside `COMMANDS`
answers CONTINUE; a missing parser method or missing handler method answers
CONTINUE; otherwise the payload is parsed and the callback invoked. -/
def DispatchT (m : Milter) (data : Bytes) :
    DispatchOutcome × Option (String × HandlerResult) :=
  match data with
  | [] => (.err .indexError, none)
  | cmd :: rest =>
    match lookupCmd cmd with
    | none => (.ret (.str RESPONSE_CONTINUE), none)
    | some command =>
      if hasParser command then
        if m.hasCallback ("On" ++ command) then parseAndCall m command rest
        else (.ret (.str RESPONSE_CONTINUE), none)
      else (.ret (.str RESPONSE_CONTINUE), none)

/-- Observable result of `PpyMilterDispatcher.Dispatch`. -/
def Dispatch (m : Milter) (data : Bytes) : DispatchOutcome :=
  (DispatchT m data).1

/-- Transport write path of `read_milter_data` (ppymilterserver.py lines
156-162): a list answer would be written element by element, a truthy
(non-empty) string answer is written once, and `None` or an empty string
writes nothing. -/
def responsesToWrite : DispatchReturn → List Bytes
  | .listv rs => rs
  | .str s => if s = [] then [] else [s]
  | .pynone => []

/-- Discriminator for the list-shaped answer the transport is prepared for. -/
def isListResponse : DispatchOutcome → Bool
  | .ret (.listv _) => true
  | _ => false

/-- Handler advertising action mask 0x01 that implements `OnMailFrom` only
(the handler of scenario E1, its callback answering CONTINUE). -/
def mfMilter : Milter :=
  { actions := 1, onMailFrom := some (fun _ _ => .reply 99 []) }

/-- Handler with no overridden callbacks and no registered actions. -/
def plainMilter : Milter := {}

/-- Reading back the four big-endian bytes of a 32-bit value. -/
theorem toU32_pack32 (v : Nat) (h : v < 4294967296) :
    toU32 (v / 16777216 % 256) (v / 65536 % 256) (v / 256 % 256) (v % 256) = v := by
  unfold toU32
  omega

/-- Shared shape of the OptNeg exchange: for a handler running the base-class
`OnOptNeg`, dispatching an OptNeg command packs `MILTER_VERSION`, the AND of
the action masks and the AND of the protocol masks, under code byte O. -/
theorem optneg_dispatch (m : Milter) (v pa pp : Nat) (hov : m.onOptNeg = none)
    (hv : v < 4294967296) (hpa : pa < 4294967296) (hpp : pp < 4294967296) :
    Dispatch m (79 :: (pack32 v ++ pack32 pa ++ pack32 pp)) =
      .ret (.str (79 :: (pack32 MILTER_VERSION ++ pack32 (m.actions &&& pa) ++
                         pack32 (m.protocol &&& pp)))) := by
  have hd : Dispatch m (79 :: (pack32 v ++ pack32 pa ++ pack32 pp)) =
      handleResult (m.callOptNeg
        (toU32 (v / 16777216 % 256) (v / 65536 % 256) (v / 256 % 256) (v % 256))
        (toU32 (pa / 16777216 % 256) (pa / 65536 % 256) (pa / 256 % 256) (pa % 256))
        (toU32 (pp / 16777216 % 256) (pp / 65536 % 256) (pp / 256 % 256) (pp % 256))) := rfl
  rw [hd, toU32_pack32 v hv, toU32_pack32 pa hpa, toU32_pack32 pp hpp]
  simp only [Milter.callOptNeg, hov, handleResult]

/-- C1 (amended: the first packed field is MILTER_VERSION = 2 itself, not the
minimum of 2 and the peer version; the concrete E1 instance is unchanged):
for every handler with advertised action mask A and advertised protocol mask P
running the base-class OnOptNeg, dispatching OptNeg with peer masks
(peer_version, peer_actions, peer_protocol) returns code byte O and a payload
packing, as three big-endian u32 values, 2, then A AND peer_actions, then
P AND peer_protocol. -/
theorem c1_optneg_ack (m : Milter) (v pa pp : Nat) (hov : m.onOptNeg = none)
    (hv : v < 4294967296) (hpa : pa < 4294967296) (hpp : pp < 4294967296) :
    Dispatch m (79 :: (pack32 v ++ pack32 pa ++ pack32 pp)) =
      .ret (.str (79 :: (pack32 MILTER_VERSION ++ pack32 (m.actions &&& pa) ++
                         pack32 (m.protocol &&& pp)))) :=
  optneg_dispatch m v pa pp hov hv hpa hpp

/-- C1 witness: the E1 exchange, peer masks (2, 0x3F, 0x7F) against the
handler advertising actions 0x01 and implementing OnMailFrom only; the
payload packs 2, 1 and 0x7B. -/
theorem c1_witness :
    Dispatch mfMilter (79 :: (pack32 2 ++ pack32 63 ++ pack32 127)) =
      DispatchOutcome.ret (.str (79 :: (pack32 MILTER_VERSION ++
        pack32 (mfMilter.actions &&& 63) ++ pack32 (mfMilter.protocol &&& 127)))) ∧
    pack32 (mfMilter.actions &&& 63) = pack32 1 ∧
    pack32 (mfMilter.protocol &&& 127) = pack32 123 :=
  ⟨c1_optneg_ack mfMilter 2 63 127 rfl (by norm_num) (by norm_num) (by norm_num),
   by decide, by decide⟩

/-- C1 as stated is false: with peer version 1 the negotiated version in the
sense of the claim is min(2,1) = 1, but the emitted payload packs version 2. -/
theorem c1_counterexample :
    Dispatch mfMilter (79 :: (pack32 1 ++ pack32 63 ++ pack32 127)) =
      DispatchOutcome.ret (.str (79 :: (pack32 2 ++ pack32 1 ++ pack32 123))) ∧
    Dispatch mfMilter (79 :: (pack32 1 ++ pack32 63 ++ pack32 127)) ≠
      DispatchOutcome.ret (.str (79 :: (pack32 (min 2 1) ++ pack32 1 ++ pack32 123))) := by
  constructor
  · decide
  · decide

/-- C2 (amended: the version field of the emitted OptNegAck always equals
MILTER_VERSION = 2, whatever the peer version; the code never takes the
minimum): dispatching OptNeg with any peer version yields a reply whose
payload starts with the four big-endian bytes of 2. -/
theorem c2_version_always_two (m : Milter) (v pa pp : Nat) (hov : m.onOptNeg = none)
    (hv : v < 4294967296) (hpa : pa < 4294967296) (hpp : pp < 4294967296) :
    ∃ tail : Bytes,
      Dispatch m (79 :: (pack32 v ++ pack32 pa ++ pack32 pp)) =
        .ret (.str (79 :: (pack32 MILTER_VERSION ++ tail))) := by
  refine ⟨pack32 (m.actions &&& pa) ++ pack32 (m.protocol &&& pp), ?_⟩
  rw [optneg_dispatch m v pa pp hov hv hpa hpp]
  simp

/-- C2 witness: a peer version of 5 is acknowledged with version 2. -/
theorem c2_witness :
    ∃ tail : Bytes,
      Dispatch plainMilter (79 :: (pack32 5 ++ pack32 1 ++ pack32 2)) =
        DispatchOutcome.ret (.str (79 :: (pack32 MILTER_VERSION ++ tail))) :=
  c2_version_always_two plainMilter 5 1 2 rfl (by norm_num) (by norm_num) (by norm_num)

/-- C2 as stated is false: for peer version 0 the claim demands an
acknowledged version of min(2,0) = 0, but the reply packs version 2. -/
theorem c2_counterexample :
    Dispatch plainMilter (79 :: (pack32 0 ++ pack32 63 ++ pack32 127)) =
      DispatchOutcome.ret (.str (79 :: (pack32 2 ++ pack32 0 ++ pack32 127))) ∧
    (2 : Nat) ≠ min 2 0 := by
  constructor
  · decide
  · decide

/-- C3: a handler that implements exactly one of the seven maskable callbacks
(and no other of the seven) has, after construction, an advertised protocol
mask equal to 0x7F with exactly that callback skip bit cleared and the other
six bits set, which for a single flag drawn from `CALLBACKS` is
`127 ^^^ flag`. -/
theorem c3_skip_bits (m : Milter) (name : String) (flag : Nat)
    (hmem : (name, flag) ∈ CALLBACKS)
    (himpl : ∀ cf ∈ CALLBACKS, m.hasCallback cf.1 = (cf.1 == name)) :
    m.protocol = 127 ^^^ flag := by
  have h1 := himpl ("OnConnect", 1) (by simp [CALLBACKS])
  have h2 := himpl ("OnHelo", 2) (by simp [CALLBACKS])
  have h3 := himpl ("OnMailFrom", 4) (by simp [CALLBACKS])
  have h4 := himpl ("OnRcptTo", 8) (by simp [CALLBACKS])
  have h5 := himpl ("OnBody", 16) (by simp [CALLBACKS])
  have h6 := himpl ("OnHeader", 32) (by simp [CALLBACKS])
  have h7 := himpl ("OnEndHeaders", 64) (by simp [CALLBACKS])
  simp only [CALLBACKS, List.mem_cons, List.not_mem_nil, or_false,
    Prod.mk.injEq] at hmem
  simp only [Milter.protocol, CALLBACKS, NO_CALLBACKS, List.foldl, h1, h2, h3,
    h4, h5, h6, h7]
  rcases hmem with hc | hc | hc | hc | hc | hc | hc <;>
    obtain ⟨rfl, rfl⟩ := hc <;> decide

/-- C3 witness: the handler implementing OnMailFrom only has protocol mask
0x7B = 0x7F with the 0x04 skip bit cleared. -/
theorem c3_witness : mfMilter.protocol = 127 ^^^ 4 :=
  c3_skip_bits mfMilter "OnMailFrom" 4 (by decide) (by decide)

/-- Handler whose OnQuit override returns the Continue response pair instead
of raising PpyMilterCloseConnection. -/
def quitContinueMilter : Milter := { onQuit := some (.reply 99 []) }

/-- C4 (amended: dispatching Q signals close only through the
PpyMilterCloseConnection exception; with the default OnQuit, which raises it,
close is signalled, but a handler whose OnQuit returns a normal response gets
that response written and no close is signalled): for every handler running
the base-class OnQuit, dispatching a Q command results in the close signal. -/
theorem c4_quit_closes (m : Milter) (d : Bytes) (h : m.onQuit = none) :
    Dispatch m (81 :: d) = DispatchOutcome.closeConnection := by
  have hd : Dispatch m (81 :: d) = handleResult m.callQuit := rfl
  rw [hd]
  simp only [Milter.callQuit, h, handleResult]

/-- C4 witness: the default handler dispatched a bare Q command closes. -/
theorem c4_witness : Dispatch plainMilter [81] = DispatchOutcome.closeConnection :=
  c4_quit_closes plainMilter [] rfl

/-- C4 as stated is false: a handler whose OnQuit override returns the
Continue pair is answered with that response, and no close is signalled. -/
theorem c4_counterexample :
    Dispatch quitContinueMilter [81] = DispatchOutcome.ret (.str [99]) ∧
    Dispatch quitContinueMilter [81] ≠ DispatchOutcome.closeConnection := by
  constructor
  · decide
  · decide

/-- C5 (amended: only the eleven command codes with a parser method reach
their callbacks; A, T and U have no `_ParseAbort`, `_ParseData` or
`_ParseUnknown`, so the dispatcher answers CONTINUE without invoking OnAbort,
OnData or OnUnknown even when they are implemented): for B, C, D, E, H, L, M,
N, O, Q and R, when the payload parses and the handler implements the mapped
callback, the dispatcher invokes exactly that callback on the parsed
arguments and its answer is the translation of that callback result. -/
theorem c5_dispatch_map :
    (∀ (m : Milter) (f : Bytes → HandlerResult) (d : Bytes), m.onBody = some f →
       DispatchT m (66 :: d) = (handleResult (f d), some ("OnBody", f d))) ∧
    (∀ (m : Milter) (f : Bytes → Nat → Nat → Bytes → HandlerResult)
       (d hn : Bytes) (fam port : Nat) (ad : Bytes), m.onConnect = some f →
       _ParseConnect d = some (hn, fam, port, ad) →
       DispatchT m (67 :: d) =
         (handleResult (f hn fam port ad), some ("OnConnect", f hn fam port ad))) ∧
    (∀ (m : Milter) (d : Bytes) (mc : Nat) (items : List Bytes),
       _ParseMacro d = some (mc, items) →
       DispatchT m (68 :: d) =
         (handleResult (m.callMacro mc items), some ("OnMacro", m.callMacro mc items))) ∧
    (∀ (m : Milter) (f : Bytes → HandlerResult) (d : Bytes), m.onEndBody = some f →
       DispatchT m (69 :: d) = (handleResult (f d), some ("OnEndBody", f d))) ∧
    (∀ (m : Milter) (f : Bytes → HandlerResult) (d : Bytes), m.onHelo = some f →
       DispatchT m (72 :: d) = (handleResult (f d), some ("OnHelo", f d))) ∧
    (∀ (m : Milter) (f : Bytes → Bytes → HandlerResult) (d k v : Bytes),
       m.onHeader = some f → _ParseHeader d = some (k, v) →
       DispatchT m (76 :: d) = (handleResult (f k v), some ("OnHeader", f k v))) ∧
    (∀ (m : Milter) (f : Bytes → List Bytes → HandlerResult) (d a : Bytes)
       (args : List Bytes), m.onMailFrom = some f → _ParseMailFrom d = some (a, args) →
       DispatchT m (77 :: d) = (handleResult (f a args), some ("OnMailFrom", f a args))) ∧
    (∀ (m : Milter) (r : HandlerResult) (d : Bytes), m.onEndHeaders = some r →
       DispatchT m (78 :: d) = (handleResult r, some ("OnEndHeaders", r))) ∧
    (∀ (m : Milter) (d : Bytes) (v pa pp : Nat), _ParseOptNeg d = some (v, pa, pp) →
       DispatchT m (79 :: d) =
         (handleResult (m.callOptNeg v pa pp), some ("OnOptNeg", m.callOptNeg v pa pp))) ∧
    (∀ (m : Milter) (d : Bytes),
       DispatchT m (81 :: d) = (handleResult m.callQuit, some ("OnQuit", m.callQuit))) ∧
    (∀ (m : Milter) (f : Bytes → List Bytes → HandlerResult) (d a : Bytes)
       (args : List Bytes), m.onRcptTo = some f → _ParseRcptTo d = some (a, args) →
       DispatchT m (82 :: d) = (handleResult (f a args), some ("OnRcptTo", f a args))) ∧
    (∀ (m : Milter) (d : Bytes),
       DispatchT m (65 :: d) = (.ret (.str RESPONSE_CONTINUE), none)) ∧
    (∀ (m : Milter) (d : Bytes),
       DispatchT m (84 :: d) = (.ret (.str RESPONSE_CONTINUE), none)) ∧
    (∀ (m : Milter) (d : Bytes),
       DispatchT m (85 :: d) = (.ret (.str RESPONSE_CONTINUE), none)) := by
  refine ⟨?_, ?_, ?_, ?_, ?_, ?_, ?_, ?_, ?_, ?_, ?_, ?_, ?_, ?_⟩
  · intro m f d hf
    have h0 : DispatchT m (66 :: d) =
        (if m.onBody.isSome then
           match m.onBody with
           | some cb => runCallback "OnBody" (cb (_ParseBody d))
           | none => (.ret (.str RESPONSE_CONTINUE), none)
         else (.ret (.str RESPONSE_CONTINUE), none)) := rfl
    rw [h0, hf]
    rfl
  · intro m f d hn fam port ad hf hp
    have h0 : DispatchT m (67 :: d) =
        (if m.onConnect.isSome then
           match _ParseConnect d with
           | none => (.err .parseError, none)
           | some (hostname, fm, pt, address) =>
             match m.onConnect with
             | some cb => runCallback "OnConnect" (cb hostname fm pt address)
             | none => (.ret (.str RESPONSE_CONTINUE), none)
         else (.ret (.str RESPONSE_CONTINUE), none)) := rfl
    rw [h0, hf, hp]
    rfl
  · intro m d mc items hp
    have h0 : DispatchT m (68 :: d) =
        (match _ParseMacro d with
         | none => (.err .parseError, none)
         | some (mc2, its) => runCallback "OnMacro" (m.callMacro mc2 its)) := rfl
    rw [h0, hp]
    rfl
  · intro m f d hf
    have h0 : DispatchT m (69 :: d) =
        (if m.onEndBody.isSome then
           match m.onEndBody with
           | some cb => runCallback "OnEndBody" (cb (_ParseEndBody d))
           | none => (.ret (.str RESPONSE_CONTINUE), none)
         else (.ret (.str RESPONSE_CONTINUE), none)) := rfl
    rw [h0, hf]
    rfl
  · intro m f d hf
    have h0 : DispatchT m (72 :: d) =
        (if m.onHelo.isSome then
           match m.onHelo with
           | some cb => runCallback "OnHelo" (cb (_ParseHelo d))
           | none => (.ret (.str RESPONSE_CONTINUE), none)
         else (.ret (.str RESPONSE_CONTINUE), none)) := rfl
    rw [h0, hf]
    rfl
  · intro m f d k v hf hp
    have h0 : DispatchT m (76 :: d) =
        (if m.onHeader.isSome then
           match _ParseHeader d with
           | none => (.err .parseError, none)
           | some (key, val) =>
             match m.onHeader with
             | some cb => runCallback "OnHeader" (cb key val)
             | none => (.ret (.str RESPONSE_CONTINUE), none)
         else (.ret (.str RESPONSE_CONTINUE), none)) := rfl
    rw [h0, hf, hp]
    rfl
  · intro m f d a args hf hp
    have h0 : DispatchT m (77 :: d) =
        (if m.onMailFrom.isSome then
           match _ParseMailFrom d with
           | none => (.err .parseError, none)
           | some (mailfrom, rest) =>
             match m.onMailFrom with
             | some cb => runCallback "OnMailFrom" (cb mailfrom rest)
             | none => (.ret (.str RESPONSE_CONTINUE), none)
         else (.ret (.str RESPONSE_CONTINUE), none)) := rfl
    rw [h0, hf, hp]
    rfl
  · intro m r d hr
    have h0 : DispatchT m (78 :: d) =
        (if m.onEndHeaders.isSome then
           match m.onEndHeaders with
           | some res => runCallback "OnEndHeaders" res
           | none => (.ret (.str RESPONSE_CONTINUE), none)
         else (.ret (.str RESPONSE_CONTINUE), none)) := rfl
    rw [h0, hr]
    rfl
  · intro m d v pa pp hp
    have h0 : DispatchT m (79 :: d) =
        (match _ParseOptNeg d with
         | none => (.err .parseError, none)
         | some (ver, acts, proto) =>
             runCallback "OnOptNeg" (m.callOptNeg ver acts proto)) := rfl
    rw [h0, hp]
    rfl
  · intro m d
    rfl
  · intro m f d a args hf hp
    have h0 : DispatchT m (82 :: d) =
        (if m.onRcptTo.isSome then
           match _ParseRcptTo d with
           | none => (.err .parseError, none)
           | some (rcptto, rest) =>
             match m.onRcptTo with
             | some cb => runCallback "OnRcptTo" (cb rcptto rest)
             | none => (.ret (.str RESPONSE_CONTINUE), none)
         else (.ret (.str RESPONSE_CONTINUE), none)) := rfl
    rw [h0, hf, hp]
    rfl
  · intro m d
    rfl
  · intro m d
    rfl
  · intro m d
    rfl

/-- C5 witness: the E3 MailFrom frame dispatched to the handler implementing
OnMailFrom invokes exactly OnMailFrom on address and argument list, and the
CONTINUE pair it returns is written back as the single byte c. -/
theorem c5_witness :
    DispatchT mfMilter
      (77 :: ([60, 97, 64, 98, 62] ++ 0 :: [83, 73, 90, 69, 61, 49, 48, 48, 0])) =
      (DispatchOutcome.ret (.str [99]),
       some ("OnMailFrom", HandlerResult.reply 99 [])) :=
  c5_dispatch_map.2.2.2.2.2.2.1 mfMilter (fun _ _ => HandlerResult.reply 99 [])
    ([60, 97, 64, 98, 62] ++ 0 :: [83, 73, 90, 69, 61, 49, 48, 48, 0])
    [60, 97, 64, 98, 62] [[83, 73, 90, 69, 61, 49, 48, 48], []]
    rfl (by decide)

/-- Handler implementing OnAbort; were OnAbort invoked on an A command, the
dispatch answer would be the REJECT byte. -/
def abortMilter : Milter := { onAbort := some .permFail }

/-- C5 as stated is false: the handler implements OnAbort, yet dispatching an
A command answers CONTINUE and the invocation trace is empty, because the
dispatcher has no `_ParseAbort` and bails out before touching the handler. -/
theorem c5_counterexample :
    abortMilter.onAbort.isSome = true ∧
    DispatchT abortMilter [65] = (DispatchOutcome.ret (.str [99]), none) ∧
    handleResult HandlerResult.permFail = DispatchOutcome.ret (.str [114]) := by
  refine ⟨rfl, by decide, by decide⟩

/-- C6: a command byte outside the command table answers CONTINUE and leaves
the handler untouched: the invocation trace stays empty, so no callback of the
milter instance runs and its state cannot be observed or modified. -/
theorem c6_unknown_safe (m : Milter) (x : Nat) (d : Bytes)
    (h : lookupCmd x = none) :
    DispatchT m (x :: d) = (DispatchOutcome.ret (.str RESPONSE_CONTINUE), none) := by
  have h0 : DispatchT m (x :: d) =
      (match lookupCmd x with
       | none => ((.ret (.str RESPONSE_CONTINUE) : DispatchOutcome),
                  (none : Option (String × HandlerResult)))
       | some command =>
         if hasParser command then
           if m.hasCallback ("On" ++ command) then parseAndCall m command d
           else (.ret (.str RESPONSE_CONTINUE), none)
         else (.ret (.str RESPONSE_CONTINUE), none)) := rfl
  rw [h0, h]

/-- C6 witness: the byte Z (90) with an arbitrary payload. -/
theorem c6_witness :
    DispatchT plainMilter [90, 1, 2, 3] =
      (DispatchOutcome.ret (.str RESPONSE_CONTINUE), none) :=
  c6_unknown_safe plainMilter 90 [1, 2, 3] (by decide)

/-- Translation of any handler outcome is never the list shape. -/
theorem handleResult_no_list (r : HandlerResult) :
    isListResponse (handleResult r) = false := by
  cases r <;> rfl

/-- Possible outcomes of the command-table lookup: failure, or a name that
together with the command byte forms an entry of the table. -/
theorem lookupCmd_cases (cmd : Nat) :
    lookupCmd cmd = none ∨
    ∃ s, lookupCmd cmd = some s ∧ (cmd, s) ∈ COMMANDS := by
  rcases hfind : COMMANDS.find? (fun p => p.1 == cmd) with _ | p
  · left
    simp [lookupCmd, hfind]
  · right
    refine ⟨p.2, by simp [lookupCmd, hfind], ?_⟩
    have h1 : p.1 = cmd := by simpa using List.find?_some hfind
    have h2 : (cmd, p.2) = p := by rw [← h1]
    rw [h2]
    exact List.mem_of_find?_eq_some hfind

/-- Exhaustive shape of a dispatch result: the index error on empty input, a
CONTINUE answer with no invocation, a parse error with no invocation, or a
traced callback invocation paired with the translation of its outcome. -/
theorem dispatchT_cases (m : Milter) (data : Bytes) :
    DispatchT m data = (.err .indexError, none) ∨
    DispatchT m data = (.ret (.str RESPONSE_CONTINUE), none) ∨
    DispatchT m data = (.err .parseError, none) ∨
    ∃ name r, DispatchT m data = (handleResult r, some (name, r)) := by
  match data with
  | [] => exact Or.inl rfl
  | cmd :: rest =>
    rcases lookupCmd_cases cmd with h | ⟨s, hs, hmem⟩
    · refine Or.inr (Or.inl ?_)
      have h0 : DispatchT m (cmd :: rest) =
          (match lookupCmd cmd with
           | none => ((.ret (.str RESPONSE_CONTINUE) : DispatchOutcome),
                      (none : Option (String × HandlerResult)))
           | some command =>
             if hasParser command then
               if m.hasCallback ("On" ++ command) then parseAndCall m command rest
               else (.ret (.str RESPONSE_CONTINUE), none)
             else (.ret (.str RESPONSE_CONTINUE), none)) := rfl
      rw [h0, h]
    · simp only [COMMANDS, List.mem_cons, List.not_mem_nil, or_false,
        Prod.mk.injEq] at hmem
      rcases hmem with hc | hc | hc | hc | hc | hc | hc | hc | hc | hc |
        hc | hc | hc | hc
      all_goals obtain ⟨rfl, rfl⟩ := hc
      -- Abort: no parser method exists, the answer is CONTINUE untraced
      · exact Or.inr (Or.inl rfl)
      -- Body
      · have h0 : DispatchT m (66 :: rest) =
            (if m.onBody.isSome then
               match m.onBody with
               | some cb => runCallback "OnBody" (cb (_ParseBody rest))
               | none => (.ret (.str RESPONSE_CONTINUE), none)
             else (.ret (.str RESPONSE_CONTINUE), none)) := rfl
        rcases hb : m.onBody with _ | cb
        · rw [h0, hb]
          exact Or.inr (Or.inl rfl)
        · rw [h0, hb]
          exact Or.inr (Or.inr (Or.inr ⟨_, _, rfl⟩))
      -- Connect
      · have h0 : DispatchT m (67 :: rest) =
            (if m.onConnect.isSome then
               match _ParseConnect rest with
               | none => (.err .parseError, none)
               | some (hostname, fm, pt, address) =>
                 match m.onConnect with
                 | some cb => runCallback "OnConnect" (cb hostname fm pt address)
                 | none => (.ret (.str RESPONSE_CONTINUE), none)
             else (.ret (.str RESPONSE_CONTINUE), none)) := rfl
        rcases hb : m.onConnect with _ | cb
        · rw [h0, hb]
          exact Or.inr (Or.inl rfl)
        · rcases hp : _ParseConnect rest with _ | ⟨hn, fam, pt, ad⟩
          · rw [h0, hb, hp]
            exact Or.inr (Or.inr (Or.inl rfl))
          · rw [h0, hb, hp]
            exact Or.inr (Or.inr (Or.inr ⟨_, _, rfl⟩))
      -- Macro: base-class handler always present
      · have h0 : DispatchT m (68 :: rest) =
            (match _ParseMacro rest with
             | none => ((.err .parseError : DispatchOutcome),
                        (none : Option (String × HandlerResult)))
             | some (mc, its) => runCallback "OnMacro" (m.callMacro mc its)) := rfl
        rcases hp : _ParseMacro rest with _ | ⟨mc, its⟩
        · rw [h0, hp]
          exact Or.inr (Or.inr (Or.inl rfl))
        · rw [h0, hp]
          exact Or.inr (Or.inr (Or.inr ⟨_, _, rfl⟩))
      -- EndBody
      · have h0 : DispatchT m (69 :: rest) =
            (if m.onEndBody.isSome then
               match m.onEndBody with
               | some cb => runCallback "OnEndBody" (cb (_ParseEndBody rest))
               | none => (.ret (.str RESPONSE_CONTINUE), none)
             else (.ret (.str RESPONSE_CONTINUE), none)) := rfl
        rcases hb : m.onEndBody with _ | cb
        · rw [h0, hb]
          exact Or.inr (Or.inl rfl)
        · rw [h0, hb]
          exact Or.inr (Or.inr (Or.inr ⟨_, _, rfl⟩))
      -- Helo
      · have h0 : DispatchT m (72 :: rest) =
            (if m.onHelo.isSome then
               match m.onHelo with
               | some cb => runCallback "OnHelo" (cb (_ParseHelo rest))
               | none => (.ret (.str RESPONSE_CONTINUE), none)
             else (.ret (.str RESPONSE_CONTINUE), none)) := rfl
        rcases hb : m.onHelo with _ | cb
        · rw [h0, hb]
          exact Or.inr (Or.inl rfl)
        · rw [h0, hb]
          exact Or.inr (Or.inr (Or.inr ⟨_, _, rfl⟩))
      -- Header
      · have h0 : DispatchT m (76 :: rest) =
            (if m.onHeader.isSome then
               match _ParseHeader rest with
               | none => (.err .parseError, none)
               | some (key, val) =>
                 match m.onHeader with
                 | some cb => runCallback "OnHeader" (cb key val)
                 | none => (.ret (.str RESPONSE_CONTINUE), none)
             else (.ret (.str RESPONSE_CONTINUE), none)) := rfl
        rcases hb : m.onHeader with _ | cb
        · rw [h0, hb]
          exact Or.inr (Or.inl rfl)
        · rcases hp : _ParseHeader rest with _ | ⟨k, v⟩
          · rw [h0, hb, hp]
            exact Or.inr (Or.inr (Or.inl rfl))
          · rw [h0, hb, hp]
            exact Or.inr (Or.inr (Or.inr ⟨_, _, rfl⟩))
      -- MailFrom
      · have h0 : DispatchT m (77 :: rest) =
            (if m.onMailFrom.isSome then
               match _ParseMailFrom rest with
               | none => (.err .parseError, none)
               | some (mailfrom, args) =>
                 match m.onMailFrom with
                 | some cb => runCallback "OnMailFrom" (cb mailfrom args)
                 | none => (.ret (.str RESPONSE_CONTINUE), none)
             else (.ret (.str RESPONSE_CONTINUE), none)) := rfl
        rcases hb : m.onMailFrom with _ | cb
        · rw [h0, hb]
          exact Or.inr (Or.inl rfl)
        · rcases hp : _ParseMailFrom rest with _ | ⟨a, args⟩
          · rw [h0, hb, hp]
            exact Or.inr (Or.inr (Or.inl rfl))
          · rw [h0, hb, hp]
            exact Or.inr (Or.inr (Or.inr ⟨_, _, rfl⟩))
      -- EndHeaders
      · have h0 : DispatchT m (78 :: rest) =
            (if m.onEndHeaders.isSome then
               match m.onEndHeaders with
               | some res => runCallback "OnEndHeaders" res
               | none => (.ret (.str RESPONSE_CONTINUE), none)
             else (.ret (.str RESPONSE_CONTINUE), none)) := rfl
        rcases hb : m.onEndHeaders with _ | res
        · rw [h0, hb]
          exact Or.inr (Or.inl rfl)
        · rw [h0, hb]
          exact Or.inr (Or.inr (Or.inr ⟨_, _, rfl⟩))
      -- OptNeg: base-class handler always present
      · have h0 : DispatchT m (79 :: rest) =
            (match _ParseOptNeg rest with
             | none => ((.err .parseError : DispatchOutcome),
                        (none : Option (String × HandlerResult)))
             | some (ver, acts, proto) =>
                 runCallback "OnOptNeg" (m.callOptNeg ver acts proto)) := rfl
        rcases hp : _ParseOptNeg rest with _ | ⟨v, pa, pp⟩
        · rw [h0, hp]
          exact Or.inr (Or.inr (Or.inl rfl))
        · rw [h0, hp]
          exact Or.inr (Or.inr (Or.inr ⟨_, _, rfl⟩))
      -- RcptTo
      · have h0 : DispatchT m (82 :: rest) =
            (if m.onRcptTo.isSome then
               match _ParseRcptTo rest with
               | none => (.err .parseError, none)
               | some (rcptto, args) =>
                 match m.onRcptTo with
                 | some cb => runCallback "OnRcptTo" (cb rcptto args)
                 | none => (.ret (.str RESPONSE_CONTINUE), none)
             else (.ret (.str RESPONSE_CONTINUE), none)) := rfl
        rcases hb : m.onRcptTo with _ | cb
        · rw [h0, hb]
          exact Or.inr (Or.inl rfl)
        · rcases hp : _ParseRcptTo rest with _ | ⟨a, args⟩
          · rw [h0, hb, hp]
            exact Or.inr (Or.inr (Or.inl rfl))
          · rw [h0, hb, hp]
            exact Or.inr (Or.inr (Or.inr ⟨_, _, rfl⟩))
      -- Quit: base-class handler always present, no parse step
      · exact Or.inr (Or.inr (Or.inr ⟨"OnQuit", m.callQuit, rfl⟩))
      -- Data: no parser method exists
      · exact Or.inr (Or.inl rfl)
      -- Unknown: no parser method exists
      · exact Or.inr (Or.inl rfl)

/-- Shape of a dispatch: either no callback was traced, or the result is a
traced invocation together with the translation of its outcome. -/
theorem dispatchT_shape (m : Milter) (data : Bytes) :
    (DispatchT m data).2 = none ∨
    ∃ name r, DispatchT m data = (handleResult r, some (name, r)) := by
  rcases dispatchT_cases m data with h | h | h | ⟨n, r, h⟩
  · exact Or.inl (by rw [h])
  · exact Or.inl (by rw [h])
  · exact Or.inl (by rw [h])
  · exact Or.inr ⟨n, r, h⟩

/-- C7: whenever the invoked callback raises PpyMilterTempFailure the
dispatcher answer is the TEMPFAIL byte, whenever it raises
PpyMilterPermFailure the answer is the REJECT byte, and in both cases no
close is signalled. -/
theorem c7_failure_mapping (m : Milter) (data : Bytes) (name : String) :
    ((DispatchT m data).2 = some (name, HandlerResult.tempFail) →
      (DispatchT m data).1 = DispatchOutcome.ret (.str RESPONSE_TEMPFAIL) ∧
      (DispatchT m data).1 ≠ DispatchOutcome.closeConnection) ∧
    ((DispatchT m data).2 = some (name, HandlerResult.permFail) →
      (DispatchT m data).1 = DispatchOutcome.ret (.str RESPONSE_REJECT) ∧
      (DispatchT m data).1 ≠ DispatchOutcome.closeConnection) := by
  rcases dispatchT_shape m data with h | ⟨n, r, h⟩
  · constructor <;> (intro h2; rw [h] at h2; exact Option.noConfusion h2)
  · constructor <;> intro h2
    · rw [h] at h2
      simp only [Option.some.injEq, Prod.mk.injEq] at h2
      obtain ⟨rfl, rfl⟩ := h2
      rw [h]
      exact ⟨rfl, by simp [handleResult]⟩
    · rw [h] at h2
      simp only [Option.some.injEq, Prod.mk.injEq] at h2
      obtain ⟨rfl, rfl⟩ := h2
      rw [h]
      exact ⟨rfl, by simp [handleResult]⟩

/-- Handler whose OnHelo raises PpyMilterTempFailure. -/
def heloTempMilter : Milter := { onHelo := some (fun _ => .tempFail) }

/-- C7 witness: an H command whose OnHelo raises the temporary failure is
answered with the TEMPFAIL byte, and the connection is not closed. -/
theorem c7_witness :
    (DispatchT heloTempMilter [72]).1 = DispatchOutcome.ret (.str RESPONSE_TEMPFAIL) ∧
    (DispatchT heloTempMilter [72]).1 ≠ DispatchOutcome.closeConnection :=
  (c7_failure_mapping heloTempMilter [72] "OnHelo").1 (by decide)

/-- Splitting once on the first NUL of a NUL-free part glued before it. -/
theorem splitOnceNul_append (addr rest : Bytes) (h : ∀ b ∈ addr, b ≠ 0) :
    splitOnceNul (addr ++ 0 :: rest) = some (addr, rest) := by
  induction addr with
  | nil => simp [splitOnceNul]
  | cons b bs ih =>
    have hb : b ≠ 0 := h b (by simp)
    have ih2 := ih (fun x hx => h x (by simp [hx]))
    simp [splitOnceNul, hb, ih2]

/-- C8: a MailFrom payload made of a NUL-free address, its terminating NUL
and the ESMTP argument bytes parses to that address and the remainder split
on NUL (a final NUL producing a trailing empty string that is kept). -/
theorem c8_parse_mailfrom (addr rest : Bytes) (h : ∀ b ∈ addr, b ≠ 0) :
    _ParseMailFrom (addr ++ 0 :: rest) = some (addr, splitNul rest) := by
  simp [_ParseMailFrom, splitOnceNul_append addr rest h]

/-- C8 witness: the E3 payload splits into the five address bytes and the
argument list made of the SIZE=100 bytes and a kept trailing empty string. -/
theorem c8_witness :
    _ParseMailFrom ([60, 97, 64, 98, 62] ++ 0 :: [83, 73, 90, 69, 61, 49, 48, 48, 0]) =
      some ([60, 97, 64, 98, 62], [[83, 73, 90, 69, 61, 49, 48, 48], []]) := by
  rw [c8_parse_mailfrom [60, 97, 64, 98, 62] [83, 73, 90, 69, 61, 49, 48, 48, 0]
    (by decide)]
  decide

/-- C9: a dispatch outcome is a single response string, `None`, the close
signal or an uncaught error, but never the list of response strings the
transport write loop of `read_milter_data` is prepared for; consequently at
most one frame is written per command. -/
theorem c9_no_list (m : Milter) (data : Bytes) :
    isListResponse (Dispatch m data) = false ∧
    (∀ r, Dispatch m data = DispatchOutcome.ret r →
      (responsesToWrite r).length ≤ 1) := by
  have h1 : isListResponse (Dispatch m data) = false := by
    rcases dispatchT_cases m data with h | h | h | ⟨n, r, h⟩
    · unfold Dispatch
      rw [h]
      rfl
    · unfold Dispatch
      rw [h]
      rfl
    · unfold Dispatch
      rw [h]
      rfl
    · unfold Dispatch
      rw [h]
      exact handleResult_no_list r
  refine ⟨h1, fun r hr => ?_⟩
  cases r with
  | str s =>
    simp only [responsesToWrite]
    split <;> simp
  | listv rs =>
    rw [hr] at h1
    exact absurd h1 (by simp [isListResponse])
  | pynone => simp [responsesToWrite]

/-- C9 witness: the CONTINUE answer to an unknown command byte is written as
exactly one frame. -/
theorem c9_witness :
    (responsesToWrite (DispatchReturn.str RESPONSE_CONTINUE)).length ≤ 1 :=
  (c9_no_list plainMilter [90]).2 (DispatchReturn.str RESPONSE_CONTINUE) rfl

/-- C10: there is no guard for a zero-length payload: dispatching the empty
byte string fails with the IndexError of the initial command-byte indexing
instead of returning any response. -/
theorem c10_empty_input (m : Milter) :
    Dispatch m [] = DispatchOutcome.err PyErr.indexError := rfl

end Ppymilter
